import Mathlib

/-!
Verification of the gap-sheet update subsystem of the AUTO_DIALER repository.

The Python sources are shallowly embedded as Lean functions:

* `pyStrip` models Python `str.strip()` on the ASCII whitespace characters.
* `column_to_number` / `number_to_column` / `get_column_letter_offset` embed
  the column-letter arithmetic helpers shared by
  `spreadsheet_updaters/base.py` and `filter_file.py`.
* `findFirstEmptyRowBase` embeds `BaseSpreadsheetUpdater._find_first_empty_row`
  (chunked scan with safety ceiling and `space_row` post-processing);
  `findFirstEmptyRowFF` embeds `FilterFile._find_first_empty_row`
  (single `A1:A1000` read, fallback to row 1 on error).
* `prepareBatchUpdates` / `updateSingleSpreadsheet` / `update_spreadsheets`
  embed `GapSpreadsheetUpdater`.
* `insertDataToSingleGapsSheet` / `processGapsSheets` embed the corresponding
  `FilterFile` methods.
* `sourceRowIndex` etc. embed the formula-copy arithmetic of
  `BaseSpreadsheetUpdater._insert_rows`.
* `filterCallsByTime` / `getPaycallData` embed the pagination loop of
  `paycall_utils.py`.

External I/O (the Google Sheets service, the PayCall HTTP API) is modelled by
explicit inputs: a sheet column is a `List String` of cell values, a fallible
read is an `Except String` value, and the paginated API is a list of pages.
A1 ranges are modelled structurally (sheet, start/end column letters, start/end
rows) rather than as formatted strings.
-/

/-- ASCII whitespace as recognised by Python `str.strip()` (space, tab,
newline, carriage return, vertical tab, form feed). -/
def isWS (c : Char) : Bool :=
  c.toNat = 32 || c.toNat = 9 || c.toNat = 10 || c.toNat = 13 ||
  c.toNat = 11 || c.toNat = 12

/-- Model of Python `str.strip()`: drop leading and trailing whitespace. -/
def pyStrip (s : String) : String :=
  ⟨(((s.data.dropWhile isWS).reverse.dropWhile isWS).reverse)⟩

/-- A cell is blank when its stripped value is empty
(Python: `not str(cell).strip()`). -/
def isBlank (s : String) : Bool := pyStrip s = ""

/-- The first element surviving `dropWhile`, if any, fails the predicate. -/
theorem dropWhile_head_false (p : Char → Bool) (l : List Char) :
    ∀ a t, l.dropWhile p = a :: t → p a = false := by
  induction l with
  | nil => intro a t h; simp [List.dropWhile] at h
  | cons x xs ih =>
    intro a t h
    by_cases hx : p x
    · rw [List.dropWhile_cons_of_pos hx] at h
      exact ih a t h
    · rw [List.dropWhile_cons_of_neg hx] at h
      cases h
      simpa using hx

/-- `dropWhile` is the identity on a list whose head fails the predicate. -/
theorem dropWhile_eq_self_of_head (p : Char → Bool) (l : List Char)
    (h : ∀ a t, l = a :: t → p a = false) : l.dropWhile p = l := by
  cases l with
  | nil => rfl
  | cons x xs => rw [List.dropWhile_cons_of_neg]; simp [h x xs rfl]

/-- Stripping from the right keeps the list a prefix of the original. -/
theorem stripRight_prefix (p : Char → Bool) (l : List Char) :
    (l.reverse.dropWhile p).reverse <+: l := by
  have h := List.dropWhile_suffix (l := l.reverse) (p := p)
  simpa using h.reverse

/-- Python `strip` is idempotent. -/
theorem pyStrip_idem (s : String) : pyStrip (pyStrip s) = pyStrip s := by
  unfold pyStrip
  set l1 := s.data.dropWhile isWS with hl1
  set l2 := (l1.reverse.dropWhile isWS).reverse with hl2
  have hhead1 : ∀ a t, l1 = a :: t → isWS a = false := by
    intro a t h; exact dropWhile_head_false isWS s.data a t (hl1 ▸ h)
  have hpre : l2 <+: l1 := hl2 ▸ stripRight_prefix isWS l1
  have hhead2 : ∀ a t, l2 = a :: t → isWS a = false := by
    intro a t h
    obtain ⟨u, hu⟩ := hpre
    rw [h] at hu
    exact hhead1 a (t ++ u) (by rw [← hu]; simp)
  have hd2 : l2.dropWhile isWS = l2 := dropWhile_eq_self_of_head isWS l2 hhead2
  have hrev : l2.reverse.dropWhile isWS = l2.reverse := by
    apply dropWhile_eq_self_of_head
    intro a t h
    have : l2.reverse = l1.reverse.dropWhile isWS := by
      rw [hl2]; simp
    rw [this] at h
    exact dropWhile_head_false isWS l1.reverse a t h
  simp only [hd2, hrev, List.reverse_reverse]

/-! ## Column-letter arithmetic

Embeds `_get_column_letter_offset` and its inner helpers `column_to_number`
and `number_to_column` (identical in `base.py` and `filter_file.py`). -/

/-- Model of Python `str.upper()` (per-character uppercase). -/
def strUpper (s : String) : String := ⟨s.data.map Char.toUpper⟩

/-- Value of one column letter: `ord(char) - ord('A') + 1`. -/
def charVal (c : Char) : Nat := c.toNat - 'A'.toNat + 1

/-- `column_to_number(col)`: bijective base-26 decoding over `col.upper()`. -/
def column_to_number (col : String) : Nat :=
  (col.data.map Char.toUpper).foldl (fun r c => r * 26 + charVal c) 0

/-- One iteration step of the Python `while num > 0` loop in
`number_to_column`: prepend `chr(ord('A') + (num-1) % 26)` and continue with
`(num-1) // 26`.  The fuel argument bounds the iteration count; `num`
iterations always suffice. -/
def numberToColumnAux : Nat → Nat → List Char → List Char
  | 0, _, acc => acc
  | fuel + 1, num, acc =>
    if num = 0 then acc
    else numberToColumnAux fuel ((num - 1) / 26)
      (Char.ofNat ('A'.toNat + (num - 1) % 26) :: acc)

/-- `number_to_column(num)`: inverse base-26 encoding. -/
def number_to_column (num : Nat) : String := ⟨numberToColumnAux num num []⟩

/-- `_get_column_letter_offset(start_column, offset)`. -/
def get_column_letter_offset (start_column : String) (offset : Nat) : String :=
  number_to_column (column_to_number start_column + offset)

theorem numberToColumnAux_zero (f : Nat) (acc : List Char) :
    numberToColumnAux f 0 acc = acc := by
  cases f <;> rfl

/-- The fuel argument is irrelevant as long as it is at least `num`. -/
theorem numberToColumnAux_fuel (f1 : Nat) :
    ∀ f2 num acc, num ≤ f1 → num ≤ f2 →
      numberToColumnAux f1 num acc = numberToColumnAux f2 num acc := by
  induction f1 with
  | zero =>
    intro f2 num acc h1 _
    interval_cases num
    rw [numberToColumnAux_zero, numberToColumnAux_zero]
  | succ f ih =>
    intro f2 num acc h1 h2
    rcases Nat.eq_zero_or_pos num with h0 | h0
    · subst h0; rw [numberToColumnAux_zero, numberToColumnAux_zero]
    · obtain ⟨f2', rfl⟩ : ∃ k, f2 = k + 1 :=
        ⟨f2 - 1, by omega⟩
      simp only [numberToColumnAux, if_neg (by omega : ¬ num = 0)]
      have hq : (num - 1) / 26 ≤ num - 1 := Nat.div_le_self _ _
      exact ih f2' ((num - 1) / 26) _ (by omega) (by omega)

/-- The accumulator is simply appended to the produced digits. -/
theorem numberToColumnAux_acc (f : Nat) :
    ∀ num acc, numberToColumnAux f num acc = numberToColumnAux f num [] ++ acc := by
  induction f with
  | zero => intro num acc; rfl
  | succ f ih =>
    intro num acc
    rcases Nat.eq_zero_or_pos num with h0 | h0
    · subst h0; rw [numberToColumnAux_zero, numberToColumnAux_zero]; rfl
    · simp only [numberToColumnAux, if_neg (by omega : ¬ num = 0)]
      rw [ih ((num - 1) / 26) (Char.ofNat ('A'.toNat + (num - 1) % 26) :: acc),
          ih ((num - 1) / 26) [Char.ofNat ('A'.toNat + (num - 1) % 26)]]
      simp

/-- Each digit character produced by the encoder is an uppercase letter with
the expected value and is fixed by `Char.toUpper`. -/
theorem colDigit_spec (k : Nat) (hk : k < 26) :
    charVal (Char.ofNat ('A'.toNat + k)) = k + 1 ∧
    Char.toUpper (Char.ofNat ('A'.toNat + k)) = Char.ofNat ('A'.toNat + k) := by
  interval_cases k <;> exact ⟨by decide, by decide⟩

/-- List-level value of a column-letter word (no upper-casing). -/
def colnumL (l : List Char) : Nat := l.foldl (fun r c => r * 26 + charVal c) 0

theorem colnumL_append (l1 l2 : List Char) :
    colnumL (l1 ++ l2) = l2.foldl (fun r c => r * 26 + charVal c) (colnumL l1) := by
  simp [colnumL, List.foldl_append]

/-- Every character produced by the encoder is fixed by `Char.toUpper`. -/
theorem numberToColumnAux_upper (f : Nat) :
    ∀ num acc, (∀ c ∈ acc, Char.toUpper c = c) →
      ∀ c ∈ numberToColumnAux f num acc, Char.toUpper c = c := by
  induction f with
  | zero => intro num acc hacc; exact hacc
  | succ f ih =>
    intro num acc hacc
    rcases Nat.eq_zero_or_pos num with h0 | h0
    · subst h0; rw [numberToColumnAux_zero]; exact hacc
    · simp only [numberToColumnAux, if_neg (by omega : ¬ num = 0)]
      apply ih
      intro c hc
      rcases List.mem_cons.mp hc with rfl | hc
      · exact (colDigit_spec ((num - 1) % 26) (Nat.mod_lt _ (by omega))).2
      · exact hacc c hc

/-- Round trip on the digit list: decoding the encoded digits of `num ≥ 1`
recovers `num`. -/
theorem colnumL_numberToColumn (num : Nat) (h : 1 ≤ num) :
    colnumL (numberToColumnAux num num []) = num := by
  induction num using Nat.strong_induction_on with
  | _ num ih =>
    obtain ⟨n, rfl⟩ : ∃ k, num = k + 1 := ⟨num - 1, by omega⟩
    simp only [numberToColumnAux, if_neg (by omega : ¬ n + 1 = 0),
      Nat.add_sub_cancel]
    rw [numberToColumnAux_acc, numberToColumnAux_fuel n (n / 26) (n / 26) _
      (Nat.div_le_self _ _) (le_refl _), colnumL_append]
    have hdigit := (colDigit_spec (n % 26) (Nat.mod_lt _ (by omega))).1
    rcases Nat.eq_zero_or_pos (n / 26) with hq | hq
    · rw [hq, numberToColumnAux_zero]
      simp only [List.foldl_cons, List.foldl_nil, colnumL, hdigit]
      omega
    · rw [ih (n / 26) (by omega) hq]
      simp only [List.foldl_cons, List.foldl_nil, hdigit]
      omega

/-- Decoding is a left inverse of encoding for positive column numbers, even
through the upper-casing performed by `column_to_number`. -/
theorem column_to_number_number_to_column (num : Nat) (h : 1 ≤ num) :
    column_to_number (number_to_column num) = num := by
  have hupper : (numberToColumnAux num num []).map Char.toUpper =
      numberToColumnAux num num [] := by
    have hcongr := List.map_congr_left (l := numberToColumnAux num num [])
      (f := Char.toUpper) (g := id)
      (fun c hc => numberToColumnAux_upper num num [] (by simp) c hc)
    simpa using hcongr
  show ((numberToColumnAux num num []).map Char.toUpper).foldl
      (fun r c => r * 26 + charVal c) 0 = num
  rw [hupper]
  exact colnumL_numberToColumn num h

/-! ## Data model for the gap-sheet update -/

/-- An A1 cell range, modelled structurally: the Python code formats this as
`'sheet'!{colStart}{rowStart}:{colEnd}{rowEnd}`. -/
structure A1Range where
  sheet : String
  colStart : String
  rowStart : Nat
  colEnd : String
  rowEnd : Nat
deriving DecidableEq, Repr

/-- One entry of a `values().batchUpdate` request body. -/
structure BatchUpdate where
  range : A1Range
  values : List (List String)
deriving DecidableEq, Repr

/-- The run metadata attached to every written row
(`kwargs['metadata']` of `GapSpreadsheetUpdater`). -/
structure RunMetadata where
  date_str : String
  time_str : String
  customers_input_file_name : String
  caller_id : String
  nick_name : String
deriving DecidableEq, Repr

/-- The per-sheet configuration keys consumed by the update path
(`space_row`, `start_column_gap_info`; `wb_id`/`sheet_id` are identity only
and omitted from the model). -/
structure GapSheetConfig where
  space_row : Bool
  start_column_gap_info : String
deriving DecidableEq, Repr

/-- Prefix a truthy (non-empty) value with a single-quote character so the
spreadsheet treats it as text (preserving leading zeros). -/
def textPrefix (s : String) : String :=
  if s = "" then s else String.singleton (Char.ofNat 39) ++ s

/-- The normalise-and-filter step of
`GapSpreadsheetUpdater._prepare_batch_updates` (lines 137-146): stringify and
strip every gap, then, when `filter_items` is provided, drop the gaps whose
stripped value is a member of it. -/
def filteredGaps (callers_gap : List String)
    (filter_items : Option (List String)) : List String :=
  let normalized := callers_gap.map pyStrip
  match filter_items with
  | none => normalized
  | some f => normalized.filter (fun s => !(f.contains (pyStrip s)))

/-- `GapSpreadsheetUpdater._prepare_batch_updates`.  Returns `[]` when the
filtered list is empty; otherwise two range/value pairs: column A with one
gap per row, and the 5-wide metadata block starting at
`start_column_gap_info` (default applied by the caller of this model). -/
def prepareBatchUpdates (cfg : GapSheetConfig) (sheet_name : String)
    (start_row : Nat) (callers_gap : List String) (md : RunMetadata)
    (filter_items : Option (List String)) : List BatchUpdate :=
  let filtered_items := filteredGaps callers_gap filter_items
  if filtered_items.isEmpty then []
  else
    let caller_display := md.nick_name
    let start_col_letter := strUpper cfg.start_column_gap_info
    let end_col_letter := get_column_letter_offset start_col_letter 4
    let column_a_values := filtered_items.map (fun gap => [gap])
    let caller_id_text := textPrefix md.caller_id
    let time_text := textPrefix md.time_str
    let gap_info_values := filtered_items.map (fun _ =>
      [caller_display, caller_id_text, md.date_str, time_text,
       md.customers_input_file_name])
    let end_row := start_row + filtered_items.length - 1
    [ { range := { sheet := sheet_name, colStart := "A", rowStart := start_row,
                   colEnd := "A", rowEnd := end_row },
        values := column_a_values },
      { range := { sheet := sheet_name, colStart := start_col_letter,
                   rowStart := start_row, colEnd := end_col_letter,
                   rowEnd := end_row },
        values := gap_info_values } ]

/-- The externally visible effects of one `_update_single_spreadsheet` call:
the `insertDimension` request issued (insertion row and number of rows), if
any, and the batch-update payload written. -/
structure UpdateEffects where
  inserted : Option (Nat × Nat)
  writes : List BatchUpdate
deriving DecidableEq, Repr

/-- `GapSpreadsheetUpdater._update_single_spreadsheet` (happy path; the sheet
name has already been resolved).  Inserts at the fixed row 2 and writes the
prepared payload there; with `space_row` one extra separator row is inserted
after the data block. -/
def updateSingleSpreadsheet (cfg : GapSheetConfig) (sheet_name : String)
    (callers_gap : List String) (md : RunMetadata)
    (filter_items : Option (List String)) : UpdateEffects :=
  let insert_at_row := 2
  let batch_updates :=
    prepareBatchUpdates cfg sheet_name insert_at_row callers_gap md filter_items
  match batch_updates with
  | [] => { inserted := none, writes := [] }
  | first :: rest =>
    let rows_to_insert := first.values.length
    if rows_to_insert = 0 then { inserted := none, writes := [] }
    else
      let total_rows_to_insert :=
        rows_to_insert + (if cfg.space_row then 1 else 0)
      { inserted := some (insert_at_row, total_rows_to_insert),
        writes := first :: rest }

/-- The structured result dictionary of
`GapSpreadsheetUpdater.update_spreadsheets`. -/
structure UpdateResult where
  success : Bool
  error : Option String
deriving DecidableEq, Repr

/-- `GapSpreadsheetUpdater.update_spreadsheets`: run the single-spreadsheet
update (whose outcome, success or raised exception, is the `attempt` input)
and convert it into a structured result instead of propagating. -/
def update_spreadsheets (attempt : Except String UpdateEffects) : UpdateResult :=
  match attempt with
  | Except.ok _ => { success := true, error := none }
  | Except.error e => { success := false, error := some e }

/-! ## Empty-row finders

The occupancy column of a sheet is modelled as a `List String` of cell values
(row `i`, 1-based, holds `col[i-1]`; rows beyond the list are empty).  A
`values().get` call on range `A{start}:A{start+len-1}` returns the rows in
range with trailing empty rows omitted, per the Sheets API. -/

/-- Drop trailing blank cells, as the Sheets API omits trailing empty rows
from a `values().get` response. -/
def dropTrailingBlanks (l : List String) : List String :=
  (l.reverse.dropWhile isBlank).reverse

/-- The Sheets API response for reading `len` rows of the occupancy column
starting at 1-based row `start`. -/
def apiGet (col : List String) (start len : Nat) : List String :=
  dropTrailingBlanks ((col.drop (start - 1)).take len)

/-- A fallible chunk reader: `read start` is the response for rows
`start .. start+999`, or a raised I/O error. -/
def colRead (col : List String) : Nat → Except String (List String) :=
  fun start => Except.ok (apiGet col start 1000)

/-- The inner `for i, row in enumerate(values)` loop of
`BaseSpreadsheetUpdater._find_first_empty_row`: track the first empty row and
the last non-empty row seen. -/
def scanChunk : Nat → List String → Option Nat → Nat → Option Nat × Nat
  | _, [], fe, lne => (fe, lne)
  | rowNum, c :: rest, fe, lne =>
    if isBlank c then
      scanChunk (rowNum + 1) rest (if fe.isNone then some rowNum else fe) lne
    else
      scanChunk (rowNum + 1) rest fe rowNum

/-- The `space_row` post-processing of
`BaseSpreadsheetUpdater._find_first_empty_row` (lines 162-177), kept with the
source's branch structure. -/
def applySpaceRow (space_row : Bool) (fe lne : Nat) : Nat :=
  if space_row then
    if fe = 2 then 2
    else if fe = lne + 1 then fe
    else fe
  else fe

/-- The `while current_row < 10000` chunk loop of
`BaseSpreadsheetUpdater._find_first_empty_row`.  The fuel argument bounds the
iteration count; starting from row 1 with chunk size 1000 the loop body runs
at most 10 times, so fuel 11 is never exhausted on reachable states. -/
def findLoop (read : Nat → Except String (List String)) (space_row : Bool) :
    Nat → Nat → Option Nat → Nat → Except String Nat
  | 0, currentRow, fe, lne =>
    Except.ok (applySpaceRow space_row (fe.getD currentRow) lne)
  | fuel + 1, currentRow, fe, lne =>
    if currentRow < 10000 then
      match read currentRow with
      | Except.error e => Except.error e
      | Except.ok values =>
        let scanned := scanChunk currentRow values fe lne
        if values.length < 1000 then
          Except.ok (applySpaceRow space_row
            (scanned.1.getD (currentRow + values.length)) scanned.2)
        else if !space_row && scanned.1.isSome then
          Except.ok (scanned.1.getD 0)
        else
          findLoop read space_row fuel (currentRow + 1000) scanned.1 scanned.2
    else
      Except.ok (applySpaceRow space_row (fe.getD currentRow) lne)

/-- `BaseSpreadsheetUpdater._find_first_empty_row`: chunked scan from row 1;
any exception raised by a read propagates (the `except` clause logs and
re-raises). -/
def findFirstEmptyRowBase (read : Nat → Except String (List String))
    (space_row : Bool) : Except String Nat :=
  findLoop read space_row 11 1 none 0

/-- The `for i, row in enumerate(values, start=1)` loop of
`FilterFile._find_first_empty_row`: first blank row, else `len(values) + 1`. -/
def ffScan : List String → Nat → Nat
  | [], i => i
  | c :: rest, i => if isBlank c then i else ffScan rest (i + 1)

/-- `FilterFile._find_first_empty_row`: one read of `A1:A1000`; on any error
it logs and returns row 1 instead of raising. -/
def findFirstEmptyRowFF (read : Except String (List String)) : Nat :=
  match read with
  | Except.error _ => 1
  | Except.ok values => ffScan values 1

/-! ## FilterFile gap-sheet writer -/

/-- The `summarize_data` list of `FilterFile`
(`[date, time, customers_input_file, caller_id, nick_name]`). -/
structure SummarizeData where
  date_str : String
  time_str : String
  customers_input_file : String
  caller_id : String
  nick_name : String
deriving DecidableEq, Repr

/-- The externally visible effects of one
`FilterFile._insert_data_to_single_gaps_sheet` call.  This method issues no
`insertDimension` request (`inserted` is always `none` by construction): it
only batch-writes values starting at `start_row`. -/
structure FFEffects where
  inserted : Option (Nat × Nat)
  start_row : Nat
  writes : List BatchUpdate
deriving DecidableEq, Repr

/-- `FilterFile._insert_data_to_single_gaps_sheet` (happy path, non-empty
`filtered_gaps`): find the first empty row; when `space_row` is enabled and
that row is past row 2, skip it (leaving it blank before the data) and start
one row lower; then batch-write column A and the metadata block. -/
def insertDataToSingleGapsSheet (cfg : GapSheetConfig) (sheet_name : String)
    (read : Except String (List String)) (filtered_gaps : List String)
    (sd : SummarizeData) : FFEffects :=
  let first_empty_row := findFirstEmptyRowFF read
  let start_row :=
    if cfg.space_row && decide (first_empty_row > 2) then first_empty_row + 1
    else first_empty_row
  let caller_display :=
    if sd.nick_name ≠ "" then sd.nick_name else sd.caller_id
  let column_a_values := filtered_gaps.map (fun gap => [gap])
  let caller_id_text := textPrefix sd.caller_id
  let gap_info_values := filtered_gaps.map (fun _ =>
    [caller_display, caller_id_text, sd.date_str, sd.time_str,
     sd.customers_input_file])
  let start_col_letter := strUpper cfg.start_column_gap_info
  let end_col_letter := get_column_letter_offset start_col_letter 4
  let end_row := start_row + filtered_gaps.length - 1
  { inserted := none,
    start_row := start_row,
    writes :=
      [ { range := { sheet := sheet_name, colStart := "A",
                     rowStart := start_row, colEnd := "A", rowEnd := end_row },
          values := column_a_values },
        { range := { sheet := sheet_name, colStart := start_col_letter,
                     rowStart := start_row, colEnd := end_col_letter,
                     rowEnd := end_row },
          values := gap_info_values } ] }

/-- The per-sheet loop of `FilterFile._insert_data_to_gaps_sheet`
(lines 312-331): each configured sheet key is processed in order; an
exception from one sheet's insert (the `Except` oracle) is caught and the
loop continues with the next sheet.  Returns the keys actually processed. -/
def processGapsSheets : List (String × Except String Unit) → List String
  | [] => []
  | (key, attempt) :: rest =>
    match attempt with
    | Except.ok _ => key :: processGapsSheets rest
    | Except.error _ => key :: processGapsSheets rest

/-! ## Row insertion and formula carry

Embeds the index arithmetic of `BaseSpreadsheetUpdater._insert_rows`
(lines 266-267 and 311-312); Python integers are modelled as `Int`. -/

/-- `start_index = max(0, start_row - 1)` — 0-based start of the inserted
row range. -/
def insertStartIndex (start_row : Int) : Int := max 0 (start_row - 1)

/-- `end_index = start_index + num_rows` — exclusive 0-based end of the
inserted row range. -/
def insertEndIndex (start_row num_rows : Int) : Int :=
  insertStartIndex start_row + num_rows

/-- `source_row_index = max(0, template_row - 1) +
(num_rows if start_row <= template_row else 0)` — the 0-based row the
formula template is copied from. -/
def sourceRowIndex (start_row num_rows template_row : Int) : Int :=
  max 0 (template_row - 1) +
    (if start_row ≤ template_row then num_rows else 0)

/-! ## PayCall pagination

A call record carries its parsed `START` time (`none` when the field is
missing or unparsable); the paginated API is modelled as the list of
successive page responses. -/

/-- One row of a PayCall response. -/
structure PcRow where
  id : Nat
  start : Option Int
deriving DecidableEq, Repr

/-- `_filter_calls_by_time`: walk the page in order; skip rows without a
parsable `START`; as soon as a row starts strictly after `end_date`, stop and
report `reached_end_time`; otherwise keep the rows starting at or after
`start_date`. -/
def filterCallsByTime (start_date end_date : Int) :
    List PcRow → List PcRow × Bool
  | [] => ([], false)
  | r :: rest =>
    match r.start with
    | none => filterCallsByTime start_date end_date rest
    | some t =>
      if t > end_date then ([], true)
      else
        let tail := filterCallsByTime start_date end_date rest
        (if t ≥ start_date then r :: tail.1 else tail.1, tail.2)

/-- The `while not reached_end_time` loop of `get_paycall_data`: consume the
page responses in order; stop on an empty page, when the page reports
`reached_end_time`, or when a page is shorter than `limit`; `v2` endpoints
have their pages reversed before filtering. -/
def getPaycallData (limit : Nat) (v2 : Bool) (start_date end_date : Int) :
    List (List PcRow) → List PcRow
  | [] => []
  | page :: rest =>
    if page.isEmpty then []
    else
      let rows := if v2 then page.reverse else page
      let filtered := filterCallsByTime start_date end_date rows
      filtered.1 ++
        (if filtered.2 then []
         else if rows.length < limit then []
         else getPaycallData limit v2 start_date end_date rest)

/-! ## Shared concrete scenario

The end-to-end scenario of the specification: occupancy column A holds one
header row and three data rows, `separator_row` is enabled, the metadata
block starts at column C, and one gap `"0099"` is written. -/

def scenCol : List String := ["header", "0011", "0012", "0013"]

def scenCfg : GapSheetConfig :=
  { space_row := true, start_column_gap_info := "C" }

def scenMd : RunMetadata :=
  { date_str := "01.01.2025", time_str := "10:00",
    customers_input_file_name := "f.xlsx", caller_id := "0501234567",
    nick_name := "Dana" }

def scenSd : SummarizeData :=
  { date_str := "01.01.2025", time_str := "10:00",
    customers_input_file := "f.xlsx", caller_id := "0501234567",
    nick_name := "Dana" }

/-- The same run metadata with an absent (empty) nick name. -/
def scenMdNoNick : RunMetadata :=
  { date_str := "01.01.2025", time_str := "10:00",
    customers_input_file_name := "f.xlsx", caller_id := "0501234567",
    nick_name := "" }

/-- The same summarize data with an absent (empty) nick name. -/
def scenSdNoNick : SummarizeData :=
  { date_str := "01.01.2025", time_str := "10:00",
    customers_input_file := "f.xlsx", caller_id := "0501234567",
    nick_name := "" }

/-! ## Claims -/

/-- Shared shape lemma for `_update_single_spreadsheet`: whenever anything is
written, `n` payload rows (one per filtered gap) plus an optional separator
row are inserted at the fixed row 2, and every write range covers rows
`2 .. 2 + n - 1`. -/
theorem updateSingleSpreadsheet_shape (cfg : GapSheetConfig) (sheet : String)
    (gaps : List String) (md : RunMetadata) (filt : Option (List String))
    (h : (updateSingleSpreadsheet cfg sheet gaps md filt).writes ≠ []) :
    ∃ n, 0 < n ∧
      (updateSingleSpreadsheet cfg sheet gaps md filt).inserted =
        some (2, n + (if cfg.space_row then 1 else 0)) ∧
      ∀ u ∈ (updateSingleSpreadsheet cfg sheet gaps md filt).writes,
        u.range.rowStart = 2 ∧ u.range.rowEnd = 2 + n - 1 := by
  by_cases hf : (filteredGaps gaps filt).isEmpty
  · exfalso; apply h
    simp [updateSingleSpreadsheet, prepareBatchUpdates, hf]
  · refine ⟨(filteredGaps gaps filt).length, ?_, ?_, ?_⟩
    · rcases List.isEmpty_iff.not.mp hf with h2
      cases hfg : filteredGaps gaps filt with
      | nil => exact absurd hfg h2
      | cons a l => simp [hfg]
    · simp only [updateSingleSpreadsheet, prepareBatchUpdates, hf, if_false,
        Bool.false_eq_true]
      simp [List.isEmpty_iff.not.mp hf]
    · intro u hu
      simp only [updateSingleSpreadsheet, prepareBatchUpdates, hf, if_false,
        Bool.false_eq_true] at hu
      simp [List.isEmpty_iff.not.mp hf] at hu
      rcases hu with rfl | rfl <;> simp

/-- Claim C4: the column-letter arithmetic is bijective base-26 with 'A' = 1:
`number_to_column (column_to_number L) = L` for
L ∈ {A, Z, AA, AZ, BA, ZZ, AAA}, and the offset helper satisfies
`_get_column_letter_offset("C", 4) = "G"` and
`_get_column_letter_offset("A", 0) = "A"`. -/
theorem c4_column_arithmetic :
    number_to_column (column_to_number "A") = "A" ∧
    number_to_column (column_to_number "Z") = "Z" ∧
    number_to_column (column_to_number "AA") = "AA" ∧
    number_to_column (column_to_number "AZ") = "AZ" ∧
    number_to_column (column_to_number "BA") = "BA" ∧
    number_to_column (column_to_number "ZZ") = "ZZ" ∧
    number_to_column (column_to_number "AAA") = "AAA" ∧
    get_column_letter_offset "C" 4 = "G" ∧
    get_column_letter_offset "A" 0 = "A" := by
  refine ⟨rfl, rfl, rfl, rfl, rfl, rfl, rfl, rfl, rfl⟩

/-- Claim C3 counterexample: the claim asserts that BOTH implementations of
the empty-row finder swallow read errors and return row 1, but
`BaseSpreadsheetUpdater._find_first_empty_row` re-raises: on a reader that
fails, it propagates the error and does not return row 1. -/
theorem c3_counterexample :
    findFirstEmptyRowBase (fun _ => Except.error "io error") true =
      Except.error "io error" ∧
    findFirstEmptyRowBase (fun _ => Except.error "io error") true ≠
      Except.ok 1 := by
  refine ⟨rfl, fun h => ?_⟩
  exact Except.noConfusion h

/-- Claim C3 amended: only `FilterFile._find_first_empty_row` falls back to
row 1 on a read error; `BaseSpreadsheetUpdater._find_first_empty_row` logs
and re-raises the error (its callers catch it per sheet). -/
theorem c3_amended (e : String) (space_row : Bool) :
    findFirstEmptyRowFF (Except.error e) = 1 ∧
    findFirstEmptyRowBase (fun _ => Except.error e) space_row =
      Except.error e := by
  exact ⟨rfl, rfl⟩

/-- Claim C1 counterexample: in the spec's scenario (1 header row + 3 data
rows in column A, `separator_row` enabled), the safe-insertion-point finder
returns row 5, but `GapSpreadsheetUpdater._update_single_spreadsheet` never
consults it: it inserts the 2 rows at the fixed row 2 and addresses both
batch-write ranges at row 2, not row 5. -/
theorem c1_counterexample :
    (updateSingleSpreadsheet scenCfg "Sheet1" ["0099"] scenMd none).inserted =
      some (2, 2) ∧
    ((updateSingleSpreadsheet scenCfg "Sheet1" ["0099"] scenMd none).writes.map
      (fun u => u.range.rowStart)) = [2, 2] ∧
    findFirstEmptyRowBase (colRead scenCol) true = Except.ok 5 ∧
    (2 : Nat) ≠ 5 := by
  refine ⟨rfl, rfl, rfl, by decide⟩

/-- Claim C1 amended: the end-to-end gap update does not consult the
safe-insertion-point finder; whenever there is data to write it inserts at
the fixed row 2 (below the header) — `len(payload)` rows, plus one separator
row when `space_row` is enabled — and addresses every batch-write range at
row 2.  In the spec's scenario, 2 rows are inserted at row 2 and the write
targets A2:A2 with "0099" and C2:G2 with the metadata row (while the finder
would return row 5). -/
theorem c1_amended :
    (∀ cfg sheet gaps md filt,
      (updateSingleSpreadsheet cfg sheet gaps md filt).writes ≠ [] →
      ∃ n, 0 < n ∧
        (updateSingleSpreadsheet cfg sheet gaps md filt).inserted =
          some (2, n + (if cfg.space_row then 1 else 0)) ∧
        ∀ u ∈ (updateSingleSpreadsheet cfg sheet gaps md filt).writes,
          u.range.rowStart = 2 ∧ u.range.rowEnd = 2 + n - 1) ∧
    updateSingleSpreadsheet scenCfg "Sheet1" ["0099"] scenMd none =
      { inserted := some (2, 2),
        writes :=
          [ { range := { sheet := "Sheet1", colStart := "A", rowStart := 2,
                         colEnd := "A", rowEnd := 2 },
              values := [["0099"]] },
            { range := { sheet := "Sheet1", colStart := "C", rowStart := 2,
                         colEnd := "G", rowEnd := 2 },
              values := [["Dana", textPrefix "0501234567", "01.01.2025",
                          textPrefix "10:00", "f.xlsx"]] } ] } := by
  constructor
  · exact updateSingleSpreadsheet_shape
  · rfl

/-- Claim C1 witness: the amended statement applied to the concrete
scenario. -/
theorem c1_witness :
    (updateSingleSpreadsheet scenCfg "Sheet1" ["0099"] scenMd none).writes ≠
      [] ∧
    ∃ n, 0 < n ∧
      (updateSingleSpreadsheet scenCfg "Sheet1" ["0099"] scenMd none).inserted
        = some (2, n + (if scenCfg.space_row then 1 else 0)) ∧
      ∀ u ∈ (updateSingleSpreadsheet scenCfg "Sheet1" ["0099"] scenMd
          none).writes,
        u.range.rowStart = 2 ∧ u.range.rowEnd = 2 + n - 1 :=
  ⟨by decide, c1_amended.1 scenCfg "Sheet1" ["0099"] scenMd none (by decide)⟩

/-- Claim C2, behavior at the failing input: with `nick_name` empty and
`caller_id = "0501234567"`, `GapSpreadsheetUpdater._prepare_batch_updates`
writes the empty string — not the caller id — as the first cell of the
metadata row (its own comment says "Use nick_name if available, otherwise
fall back to caller_id", but the code assigns `caller_display = nick_name`
unconditionally).  `FilterFile._insert_data_to_single_gaps_sheet` does apply
the fallback on the same input. -/
theorem c2_failing_eval :
    ((updateSingleSpreadsheet scenCfg "Sheet1" ["0099"] scenMdNoNick
        none).writes.map (fun u => u.values.map (fun r => r.headD "?"))) =
      [[ "0099" ], [ "" ]] ∧
    ("" : String) ≠ "0501234567" ∧
    ((insertDataToSingleGapsSheet scenCfg "Sheet1"
        (Except.ok (apiGet scenCol 1 1000)) ["0099"]
        scenSdNoNick).writes.map (fun u => u.values.map (fun r => r.headD "?")))
      = [[ "0099" ], [ "0501234567" ]] := by
  refine ⟨rfl, by decide, rfl⟩

/-- Claim C5 counterexample: the claim's sources include
`FilterFile._insert_data_to_single_gaps_sheet`, which inserts NO blank rows
at all; in the spec's scenario (4 occupied rows, `space_row` enabled, one
payload row) it issues no `insertDimension` request (0 inserted rows, not
1 + 1 = 2) and writes the data at row 6, leaving the blank separator row 5
BEFORE the written block, not after it. -/
theorem c5_counterexample :
    (insertDataToSingleGapsSheet scenCfg "Sheet1"
        (Except.ok (apiGet scenCol 1 1000)) ["0099"] scenSd).inserted =
      none ∧
    findFirstEmptyRowFF (Except.ok (apiGet scenCol 1 1000)) = 5 ∧
    (insertDataToSingleGapsSheet scenCfg "Sheet1"
        (Except.ok (apiGet scenCol 1 1000)) ["0099"] scenSd).start_row = 6 ∧
    ((insertDataToSingleGapsSheet scenCfg "Sheet1"
        (Except.ok (apiGet scenCol 1 1000)) ["0099"] scenSd).writes.map
      (fun u => u.range.rowStart)) = [6, 6] := by
  refine ⟨rfl, rfl, rfl, rfl⟩

/-- Claim C5 amended: in `GapSpreadsheetUpdater`, the number of inserted
rows is `len(payload) + 1` with `space_row` and exactly `len(payload)`
without, and the payload is written starting at the insertion row 2, so the
extra blank row trails the written block (rows 2..n+1 written, row n+2 left
blank).  `FilterFile._insert_data_to_single_gaps_sheet`, by contrast,
inserts no rows; when `space_row` is enabled and the first empty row is past
row 2 it skips that row, leaving the blank separator BEFORE the block it
writes. -/
theorem c5_amended :
    (∀ cfg sheet gaps md filt,
      (updateSingleSpreadsheet cfg sheet gaps md filt).writes ≠ [] →
      ∃ n, 0 < n ∧
        (updateSingleSpreadsheet cfg sheet gaps md filt).inserted =
          some (2, if cfg.space_row then n + 1 else n) ∧
        (∀ u ∈ (updateSingleSpreadsheet cfg sheet gaps md filt).writes,
          u.range.rowStart = 2 ∧ u.range.rowEnd = 2 + n - 1) ∧
        (cfg.space_row = true → 2 + n - 1 < 2 + (n + 1) - 1)) ∧
    (∀ cfg sheet read gaps sd,
      (insertDataToSingleGapsSheet cfg sheet read gaps sd).inserted = none ∧
      (cfg.space_row = true → 2 < findFirstEmptyRowFF read →
        (insertDataToSingleGapsSheet cfg sheet read gaps sd).start_row =
          findFirstEmptyRowFF read + 1)) := by
  constructor
  · intro cfg sheet gaps md filt h
    obtain ⟨n, hn, hins, hrows⟩ :=
      updateSingleSpreadsheet_shape cfg sheet gaps md filt h
    refine ⟨n, hn, ?_, hrows, fun _ => by omega⟩
    rw [hins]
    by_cases hs : cfg.space_row <;> simp [hs]
  · intro cfg sheet read gaps sd
    refine ⟨rfl, fun hs hf => ?_⟩
    simp [insertDataToSingleGapsSheet, hs, hf]

/-- Claim C5 witness: the amended statement applied to the concrete
scenario (both the updater path and the FilterFile path). -/
theorem c5_witness :
    ((updateSingleSpreadsheet scenCfg "Sheet1" ["0099"] scenMd none).writes ≠
        [] ∧
      ∃ n, 0 < n ∧
        (updateSingleSpreadsheet scenCfg "Sheet1" ["0099"] scenMd
            none).inserted =
          some (2, if scenCfg.space_row then n + 1 else n) ∧
        (∀ u ∈ (updateSingleSpreadsheet scenCfg "Sheet1" ["0099"] scenMd
            none).writes,
          u.range.rowStart = 2 ∧ u.range.rowEnd = 2 + n - 1) ∧
        (scenCfg.space_row = true → 2 + n - 1 < 2 + (n + 1) - 1)) ∧
    ((insertDataToSingleGapsSheet scenCfg "Sheet1"
        (Except.ok (apiGet scenCol 1 1000)) ["0099"] scenSd).inserted = none ∧
      (scenCfg.space_row = true →
        2 < findFirstEmptyRowFF (Except.ok (apiGet scenCol 1 1000)) →
        (insertDataToSingleGapsSheet scenCfg "Sheet1"
            (Except.ok (apiGet scenCol 1 1000)) ["0099"] scenSd).start_row =
          findFirstEmptyRowFF (Except.ok (apiGet scenCol 1 1000)) + 1)) :=
  ⟨⟨by decide, c5_amended.1 scenCfg "Sheet1" ["0099"] scenMd none (by decide)⟩,
    c5_amended.2 scenCfg "Sheet1" (Except.ok (apiGet scenCol 1 1000)) ["0099"]
      scenSd⟩

/-- Claim C6: with `copy_formulas_on_insert`, the formula-copy source row is
the template row shifted down by `num_rows` exactly when
`start_row ≤ formula_template_row`, and the unshifted template row
otherwise; in both cases the source lies outside the just-inserted row range
`[start_index, end_index)`, i.e. it always refers to a pre-existing row. -/
theorem c6_formula_copy_source (start_row num_rows template_row : Int)
    (hs : 1 ≤ start_row) (hn : 1 ≤ num_rows) (ht : 1 ≤ template_row) :
    (start_row ≤ template_row →
      sourceRowIndex start_row num_rows template_row =
        (template_row - 1) + num_rows) ∧
    (template_row < start_row →
      sourceRowIndex start_row num_rows template_row = template_row - 1) ∧
    ¬ (insertStartIndex start_row ≤
          sourceRowIndex start_row num_rows template_row ∧
        sourceRowIndex start_row num_rows template_row <
          insertEndIndex start_row num_rows) := by
  simp only [sourceRowIndex, insertStartIndex, insertEndIndex,
    max_eq_right (by omega : (0 : Int) ≤ start_row - 1),
    max_eq_right (by omega : (0 : Int) ≤ template_row - 1)]
  by_cases h : start_row ≤ template_row <;> simp [h]

/-- Claim C6 witness: the source-row arithmetic at concrete inputs (rows
inserted before the template row: start_row 2, num_rows 3, template row 5). -/
theorem c6_witness :
    (1 : Int) ≤ 2 ∧ (1 : Int) ≤ 3 ∧ (1 : Int) ≤ 5 ∧
    (((2 : Int) ≤ 5 → sourceRowIndex 2 3 5 = (5 - 1) + 3) ∧
      ((5 : Int) < 2 → sourceRowIndex 2 3 5 = 5 - 1) ∧
      ¬ (insertStartIndex 2 ≤ sourceRowIndex 2 3 5 ∧
          sourceRowIndex 2 3 5 < insertEndIndex 2 3)) :=
  ⟨by decide, by decide, by decide,
    c6_formula_copy_source 2 3 5 (by decide) (by decide) (by decide)⟩

/-- Claim C7: with a filter set, the prepared payload keeps exactly the gaps
whose stripped value is not in the set, in their original order; with no
filter every gap passes through (stripped); and when the filtered list is
empty, the update inserts no rows and writes nothing. -/
theorem c7_filter_contract :
    (∀ (gaps : List String) (f : List String),
      filteredGaps gaps (some f) =
        (gaps.map pyStrip).filter (fun s => !(f.contains s))) ∧
    (∀ gaps : List String, filteredGaps gaps none = gaps.map pyStrip) ∧
    (∀ cfg sheet gaps md filt, filteredGaps gaps filt = [] →
      updateSingleSpreadsheet cfg sheet gaps md filt =
        { inserted := none, writes := [] }) := by
  refine ⟨?_, fun gaps => rfl, ?_⟩
  · intro gaps f
    unfold filteredGaps
    apply List.filter_congr
    intro s hs
    obtain ⟨g, _, rfl⟩ := List.mem_map.mp hs
    rw [pyStrip_idem]
  · intro cfg sheet gaps md filt h
    have hf : (filteredGaps gaps filt).isEmpty := by simp [h]
    simp [updateSingleSpreadsheet, prepareBatchUpdates, hf]

/-- Claim C7 witness: the filtering contract at the spec's concrete inputs
(`["0012", "0013"]` against filter `{"0012"}`, and an all-filtered list
causing a no-op update). -/
theorem c7_witness :
    filteredGaps ["0012", "0013"] (some ["0012"]) =
      (["0012", "0013"].map pyStrip).filter
        (fun s => !(["0012"].contains s)) ∧
    filteredGaps ["0012"] (some ["0012"]) = [] ∧
    updateSingleSpreadsheet scenCfg "Sheet1" ["0012"] scenMd
        (some ["0012"]) =
      { inserted := none, writes := [] } :=
  ⟨c7_filter_contract.1 ["0012", "0013"] ["0012"], by decide,
    c7_filter_contract.2.2 scenCfg "Sheet1" ["0012"] scenMd (some ["0012"])
      (by decide)⟩

/-- Claim C8: `update_spreadsheets` never propagates an exception from the
per-sheet update: it returns `{success := true, error := none}` on success
and `{success := false, error := msg}` on failure; and the multi-sheet loop
of `FilterFile._insert_data_to_gaps_sheet` processes every configured sheet
key in order regardless of per-sheet failures. -/
theorem c8_partial_failure :
    (∀ eff, update_spreadsheets (Except.ok eff) =
      { success := true, error := none }) ∧
    (∀ e, update_spreadsheets (Except.error e) =
      { success := false, error := some e }) ∧
    (∀ sheets, processGapsSheets sheets = sheets.map Prod.fst) := by
  refine ⟨fun eff => rfl, fun e => rfl, ?_⟩
  intro sheets
  induction sheets with
  | nil => rfl
  | cons p rest ih =>
    obtain ⟨key, attempt⟩ := p
    cases attempt <;> simp [processGapsSheets, ih]

/-- Claim C9: the PayCall fetch loop stops requesting further pages as soon
as a page reports `reached_end_time` (a row starting strictly after the end
date) or returns fewer rows than `limit` — the result no longer depends on
any later page; and within a page, the filtered rows are exactly the
in-range rows of the prefix strictly before the first row starting after the
end date (rows at and after that point are excluded). -/
theorem c9_pagination_stop :
    (∀ (limit : Nat) (v2 : Bool) (s e : Int) (page : List PcRow)
        (rest : List (List PcRow)),
      ((filterCallsByTime s e (if v2 then page.reverse else page)).2 = true ∨
        page.length < limit) →
      getPaycallData limit v2 s e (page :: rest) =
        getPaycallData limit v2 s e [page]) ∧
    (∀ (s e : Int) (rows : List PcRow),
      (filterCallsByTime s e rows).1 =
        (rows.takeWhile
          (fun r => !(r.start.any (fun t => decide (e < t))))).filter
          (fun r => r.start.any (fun t => decide (s ≤ t)))) := by
  constructor
  · intro limit v2 s e page rest h
    by_cases hp : page.isEmpty
    · simp [getPaycallData, hp]
    · simp only [getPaycallData, hp, if_false, Bool.false_eq_true]
      have hlen : (if v2 then page.reverse else page).length = page.length := by
        cases v2 <;> simp
      rcases h with h | h
      · simp [h]
      · rw [hlen] at *
        simp [h]
  · intro s e rows
    induction rows with
    | nil => rfl
    | cons r rest ih =>
      cases hs : r.start with
      | none =>
        simp [filterCallsByTime, hs, ih, List.takeWhile, List.filter,
          Option.any]
      | some t =>
        by_cases he : e < t
        · simp [filterCallsByTime, hs, he, List.takeWhile, Option.any,
            not_lt.mpr]
        · by_cases hge : s ≤ t <;>
            simp [filterCallsByTime, hs, he, hge, ih, List.takeWhile,
              List.filter, Option.any, not_lt.mp]

/-- Claim C9 witness: the stop condition applied to a concrete short page (1
row < limit 10): the second page is never requested. -/
theorem c9_witness :
    ((filterCallsByTime 0 100
        (if false = true then [({ id := 1, start := some 5 } : PcRow)].reverse
         else [({ id := 1, start := some 5 } : PcRow)])).2 = true ∨
      ([({ id := 1, start := some 5 } : PcRow)]).length < 10) ∧
    getPaycallData 10 false 0 100
        [[{ id := 1, start := some 5 }], [{ id := 2, start := some 7 }]] =
      getPaycallData 10 false 0 100 [[{ id := 1, start := some 5 }]] :=
  ⟨Or.inr (by decide),
    c9_pagination_stop.1 10 false 0 100 [{ id := 1, start := some 5 }]
      [[{ id := 2, start := some 7 }]] (Or.inr (by decide))⟩

/-- Claim C10: whenever `_prepare_batch_updates` returns a non-empty result,
it is exactly two range/values pairs over the same row span
`start_row .. start_row + n - 1` (`n` the number of filtered gaps): the
first targets column A with one single-cell row per gap, the second a block
exactly 5 columns wide starting at the configured metadata column, with
every row containing exactly 5 cells, and both with `n` value rows. -/
theorem c10_payload_invariant (cfg : GapSheetConfig) (sheet : String)
    (start_row : Nat) (gaps : List String) (md : RunMetadata)
    (filt : Option (List String))
    (h : prepareBatchUpdates cfg sheet start_row gaps md filt ≠ []) :
    ∃ u1 u2, prepareBatchUpdates cfg sheet start_row gaps md filt = [u1, u2] ∧
      u1.values.length = (filteredGaps gaps filt).length ∧
      u2.values.length = u1.values.length ∧
      u1.range.colStart = "A" ∧ u1.range.colEnd = "A" ∧
      u1.range.rowStart = start_row ∧
      u1.range.rowEnd = start_row + u1.values.length - 1 ∧
      u2.range.rowStart = start_row ∧
      u2.range.rowEnd = u1.range.rowEnd ∧
      u1.values = (filteredGaps gaps filt).map (fun gap => [gap]) ∧
      (∀ r ∈ u1.values, r.length = 1) ∧
      (∀ r ∈ u2.values, r.length = 5) ∧
      u2.range.colStart = strUpper cfg.start_column_gap_info ∧
      column_to_number u2.range.colEnd =
        column_to_number u2.range.colStart + 4 := by
  by_cases hf : (filteredGaps gaps filt).isEmpty
  · exact absurd (by simp [prepareBatchUpdates, hf]) h
  · refine
      ⟨{ range := { sheet := sheet, colStart := "A", rowStart := start_row,
                    colEnd := "A",
                    rowEnd := start_row + (filteredGaps gaps filt).length - 1 },
         values := (filteredGaps gaps filt).map (fun gap => [gap]) },
       { range := { sheet := sheet,
                    colStart := strUpper cfg.start_column_gap_info,
                    rowStart := start_row,
                    colEnd := get_column_letter_offset
                      (strUpper cfg.start_column_gap_info) 4,
                    rowEnd := start_row + (filteredGaps gaps filt).length - 1 },
         values := (filteredGaps gaps filt).map (fun _ =>
           [md.nick_name, textPrefix md.caller_id, md.date_str,
            textPrefix md.time_str, md.customers_input_file_name]) },
       ?_, by simp, by simp, rfl, rfl, rfl, by simp, rfl, rfl, rfl, ?_, ?_,
       rfl, ?_⟩
    · simp only [prepareBatchUpdates, hf, if_false, Bool.false_eq_true]
    · intro r hr
      obtain ⟨g, _, rfl⟩ := List.mem_map.mp hr
      rfl
    · intro r hr
      obtain ⟨g, _, rfl⟩ := List.mem_map.mp hr
      rfl
    · exact column_to_number_number_to_column _ (by omega)

/-- Claim C10 witness: the payload invariant at the spec's concrete
scenario. -/
theorem c10_witness :
    prepareBatchUpdates scenCfg "Sheet1" 2 ["0099"] scenMd none ≠ [] ∧
    ∃ u1 u2,
      prepareBatchUpdates scenCfg "Sheet1" 2 ["0099"] scenMd none = [u1, u2] ∧
      u1.values.length = (filteredGaps ["0099"] none).length ∧
      u2.values.length = u1.values.length ∧
      u1.range.colStart = "A" ∧ u1.range.colEnd = "A" ∧
      u1.range.rowStart = 2 ∧
      u1.range.rowEnd = 2 + u1.values.length - 1 ∧
      u2.range.rowStart = 2 ∧
      u2.range.rowEnd = u1.range.rowEnd ∧
      u1.values = (filteredGaps ["0099"] none).map (fun gap => [gap]) ∧
      (∀ r ∈ u1.values, r.length = 1) ∧
      (∀ r ∈ u2.values, r.length = 5) ∧
      u2.range.colStart = strUpper scenCfg.start_column_gap_info ∧
      column_to_number u2.range.colEnd =
        column_to_number u2.range.colStart + 4 :=
  ⟨by decide,
    c10_payload_invariant scenCfg "Sheet1" 2 ["0099"] scenMd none (by decide)⟩
